import Mathlib

/-!
Shallow embedding of the `timeit_decorator` repository (jubnl/timeit_decorator).

The repository provides decorators that run a wrapped callable `runs` times
across `workers` threads / processes / coroutine tasks, time each attempt,
aggregate statistics, and return the first successful value:

* `src/timeit_decorator/sync_wrapper.py` — `timeit_sync`, `sync_wrapper`,
  `_timeit_worker`;
* `src/timeit_decorator/async_wrapper.py` — `timeit_async`, `async_wrapper`,
  `run_once`;
* `src/timeit_decorator/timeit.py` — the legacy `timeit` decorator and its
  `wrapper` / `_timeit_worker`.

Real wall-clock time, OS threads and the event loop cannot appear in a shallow
embedding, so each attempt of the wrapped callable is abstracted by an
`Attempt` value: either the attempt raises an exception, or it completes with
an elapsed duration `t` (a rational standing for Python's float seconds) and a
return value `v : Option α` (with `none` standing for Python's `None`).
Dispatch order of the attempt list is the original submission order, which is
also the order in which `pool.map`, the futures list and `asyncio.gather`
deliver the per-attempt result triples in the source.
-/

namespace TimeitDecorator

/-- Execution context queried by the reentrancy guard: whether the current
thread is the main thread (`threading.current_thread() is
threading.main_thread()`) and the current process name
(`multiprocessing.current_process().name`). -/
structure ExecCtx where
  isMainThread : Bool
  processName : String
deriving DecidableEq, Repr

/-- The context of a top-level call: main thread of the process named
`MainProcess`. -/
def mainCtx : ExecCtx := ⟨true, "MainProcess"⟩

/-- The reentrancy guard fires when the current thread is not the main thread
or the current process is not `MainProcess` (sync_wrapper.py lines 131-135,
async_wrapper.py lines 90-93, timeit.py lines 94-102). -/
def guardTriggered (ctx : ExecCtx) : Prop :=
  ctx.isMainThread = false ∨ ctx.processName ≠ "MainProcess"

instance (ctx : ExecCtx) : Decidable (guardTriggered ctx) := by
  unfold guardTriggered
  infer_instance

/-- One attempt of the wrapped callable, abstracted: it either raises, or it
completes after elapsed wall-clock time `t` returning the Python value `v`
(`none` is Python's `None`).  A raising attempt is modelled as delivering its
exception promptly, so it carries no duration. -/
inductive Attempt (α : Type) where
  | raises
  | completes (t : ℚ) (v : Option α)
deriving DecidableEq, Repr

/-- The triple `(execution_time, func_result, timed_out)` produced for one
attempt — `_timeit_worker`'s return value in sync_wrapper.py, `run_once`'s in
async_wrapper.py.  `(none, none, none)` is the failure triple of the sync
worker's `except` branch. -/
abbrev WorkerResult (α : Type) := Option ℚ × Option α × Option Bool

/-- Python truthiness of the optional `timeout` float: `None` and `0.0` are
falsy. -/
def pyTruthy : Option ℚ → Bool
  | none => false
  | some t => t != 0

/-- Model of `_timeit_worker` (sync_wrapper.py lines 20-50) on one attempt:
runs the callable to completion, and sets `timed_out` exactly when a timeout
is configured, the elapsed time strictly exceeds it, and `enforce_timeout` is
false (line 41).  An attempt that raises yields `(None, None, None)`
(lines 48-50). -/
def timeit_worker (timeout : Option ℚ) (enforce_timeout : Bool) :
    Attempt α → WorkerResult α
  | .raises => (none, none, none)
  | .completes t v =>
      (some t, v,
        some (match timeout with
          | some tout => decide (t > tout) && !enforce_timeout
          | none => false))

/-- Model of the enforced-timeout collection loop (sync_wrapper.py lines
187-199): each future's result is awaited with `future.result(timeout)`.  If
the attempt's elapsed time exceeds the budget, `TimeoutError` is caught and
the triple `(timeout, None, True)` is appended (line 196); otherwise the
worker triple is collected, whose `timed_out` flag is `False` because
`enforce_timeout` is true inside `_timeit_worker`.  A raising attempt is
caught inside `_timeit_worker` itself, giving `(None, None, None)`. -/
def enforcedCollect (timeout : ℚ) : Attempt α → WorkerResult α
  | .raises => (none, none, none)
  | .completes t v =>
      if t > timeout then (some timeout, none, some true)
      else (some t, v, some false)

/-- Model of `run_once` (async_wrapper.py lines 95-132).  An exception is
caught and gives `(None, None, False)` (line 132).  With a truthy timeout:
soft mode keeps the completed value and true duration and flags `timed_out`
when the elapsed time exceeds the budget (lines 103-114); enforced mode
cancels the task at the budget, recording the budget as the elapsed duration
with an absent value (lines 115-124). -/
def run_once (timeout : Option ℚ) (enforce_timeout : Bool) :
    Attempt α → WorkerResult α
  | .raises => (none, none, some false)
  | .completes t v =>
      match timeout with
      | some tout =>
          if tout ≠ 0 then
            if !enforce_timeout then (some t, v, some (decide (t > tout)))
            else if t > tout then (some tout, none, some true)
            else (some t, v, some false)
          else (some t, v, some false)
      | none => (some t, v, some false)

/-- The statistics computed over the collected durations (sync_wrapper.py
lines 217-223, async_wrapper.py lines 165-170).  The sample standard
deviation (`statistics.stdev`) is irrational in general and is modelled by
the separate real-valued `std_dev` below over the same duration list. -/
structure Stats where
  avg_time : ℚ
  med_time : ℚ
  min_time : ℚ
  max_time : ℚ
  total_time : ℚ
  timed_out_any : Bool
deriving DecidableEq, Repr

/-- Arithmetic mean of a duration list (`statistics.mean`). -/
def meanQ (xs : List ℚ) : ℚ := xs.sum / (xs.length : ℚ)

/-- Insert into a sorted list, ascending. -/
def insertSorted (x : ℚ) : List ℚ → List ℚ
  | [] => [x]
  | y :: rest => if x ≤ y then x :: y :: rest else y :: insertSorted x rest

/-- Ascending sort of a duration list, modelling Python's `sorted`. -/
def sortQ (xs : List ℚ) : List ℚ := xs.foldr insertSorted []

/-- Model of `statistics.median`: middle element of the sorted data for odd
length, mean of the two middle elements for even length. -/
def medianQ (xs : List ℚ) : ℚ :=
  let s := sortQ xs
  let n := s.length
  if n % 2 = 1 then s.getD (n / 2) 0
  else (s.getD (n / 2 - 1) 0 + s.getD (n / 2) 0) / 2

/-- Python's `min` over a nonempty list (the sources only call it with a
nonempty `times`; the empty case is given a junk value 0). -/
def listMin : List ℚ → ℚ
  | [] => 0
  | x :: rest => rest.foldl min x

/-- Python's `max` over a nonempty list (same remark as `listMin`). -/
def listMax : List ℚ → ℚ
  | [] => 0
  | x :: rest => rest.foldl max x

/-- Sample variance of a duration list; `statistics.stdev` is its square
root. -/
def sampleVar (xs : List ℚ) : ℚ :=
  ((xs.map fun x => (x - meanQ xs) ^ 2).sum) / ((xs.length : ℚ) - 1)

/-- `std_dev = stdev(times) if len(times) > 1 else 0` (sync_wrapper.py line
222, async_wrapper.py line 169), with `statistics.stdev` the square root of
the sample variance. -/
noncomputable def std_dev (xs : List ℚ) : ℝ :=
  if 1 < xs.length then Real.sqrt ((sampleVar xs : ℚ) : ℝ) else 0

/-- The statistics record assembled from the filtered `times` and `timed_out`
lists (sync_wrapper.py lines 218-223 and 238, async_wrapper.py lines 165-170
and 185). -/
def computeStats (times : List ℚ) (timed_out : List Bool) : Stats :=
  ⟨meanQ times, medianQ times, listMin times, listMax times,
    times.sum, timed_out.any id⟩

/-- A value returned by a wrapper to its caller: Python `None`, the empty
list `[]` (returned by the batched path when every attempt failed and
`detailed` is true), or an actual value of the wrapped callable. -/
inductive Ret (α : Type) where
  | pynone
  | emptyList
  | val (v : α)
deriving DecidableEq, Repr

/-- View an abstract Python value (`Option α`, `none` = `None`) as a returned
value. -/
def toRet : Option α → Ret α
  | none => Ret.pynone
  | some v => Ret.val v

/-- Exceptions that can escape a wrapper. -/
inductive PyErr where
  | valueError (msg : String)
  | runtimeError (msg : String)
  | typeError
  | userExc
deriving DecidableEq, Repr

/-- The decorator configuration after construction.  `runs` and `workers` are
naturals because construction rejects values below 1 and clamps `workers` to
`min(workers, runs)`. -/
structure Config where
  runs : Nat
  workers : Nat
  use_multiprocessing : Bool
  detailed : Bool
  timeout : Option ℚ
  enforce_timeout : Bool
deriving DecidableEq, Repr

/-- Construction-time logic of `timeit_sync` (sync_wrapper.py lines 108-112):
reject `runs < 1` or `workers < 1` with `ValueError`, then clamp `workers` to
`min(workers, runs)`.  `log_level` only configures logging and is omitted. -/
def timeit_sync (runs workers : Int) (use_multiprocessing detailed : Bool)
    (timeout : Option ℚ) (enforce_timeout : Bool) : Except PyErr Config :=
  if runs < 1 ∨ workers < 1 then
    .error (.valueError "Both runs and workers must be at least 1")
  else
    .ok ⟨runs.toNat, (min workers runs).toNat, use_multiprocessing, detailed,
      timeout, enforce_timeout⟩

/-- Construction-time logic of `timeit_async` (async_wrapper.py lines 68-72),
identical to the synchronous one. -/
def timeit_async (runs workers : Int) (use_multiprocessing detailed : Bool)
    (timeout : Option ℚ) (enforce_timeout : Bool) : Except PyErr Config :=
  if runs < 1 ∨ workers < 1 then
    .error (.valueError "Both runs and workers must be at least 1")
  else
    .ok ⟨runs.toNat, (min workers runs).toNat, use_multiprocessing, detailed,
      timeout, enforce_timeout⟩

/-- A direct, uninstrumented invocation of the wrapped callable — the
reentrancy-guard short circuit (`return func(*args, **kwargs)`) and the
synchronous fast path (`result = func(*args, **kwargs)` with no surrounding
`try`), whose exceptions propagate to the caller.  Only the first attempt
behavior is consumed; no statistics report is aggregated. -/
def directCall : List (Attempt α) → Except PyErr (Ret α × Option Stats)
  | [] => .ok (Ret.pynone, none)
  | Attempt.raises :: _ => .error PyErr.userExc
  | Attempt.completes _ v :: _ => .ok (toRet v, none)

/-- The batched aggregation and return logic shared verbatim by
sync_wrapper.py lines 208-251 and async_wrapper.py lines 157-197:
`times`, `valid_results` and `timed_out` are comprehensions keeping the
non-`None` components in dispatch order; an empty `times` returns `None`
(or `[]` when `detailed`) and produces no statistics; otherwise statistics
are computed and the first non-`None` entry of `valid_results` is returned,
falling back to `None`. -/
def batchReturn (detailed : Bool) (results : List (WorkerResult α)) :
    Ret α × Option Stats :=
  let times := results.filterMap fun r => r.1
  let valid_results := results.filterMap fun r => r.2.1
  let timed_out := results.filterMap fun r => r.2.2
  if times.isEmpty then
    ((if detailed then Ret.emptyList else Ret.pynone), none)
  else
    ((match valid_results.head? with
      | some v => Ret.val v
      | none => Ret.pynone), some (computeStats times timed_out))

/-- async_wrapper.py lines 157-197 repeat the extraction logic of
sync_wrapper.py lines 208-251 verbatim; the model shares the definition. -/
def asyncBatchReturn (detailed : Bool) (results : List (WorkerResult α)) :
    Ret α × Option Stats :=
  batchReturn detailed results

/-- The per-attempt result triples collected by the batched synchronous path
(sync_wrapper.py lines 176-206), in dispatch order: `pool.map` in
multiprocessing mode, the enforced-timeout future loop when
`enforce_timeout and timeout` is truthy in threading mode, and the plain
future loop otherwise.  The exception branches of the collection loops map
failures to the worker's own `(None, None, None)` triple. -/
def syncRecords (cfg : Config) (bs : List (Attempt α)) : List (WorkerResult α) :=
  if cfg.use_multiprocessing then
    bs.map (timeit_worker cfg.timeout cfg.enforce_timeout)
  else if cfg.enforce_timeout ∧ pyTruthy cfg.timeout then
    bs.map (enforcedCollect (cfg.timeout.getD 0))
  else
    bs.map (timeit_worker cfg.timeout cfg.enforce_timeout)

/-- Model of `sync_wrapper` (sync_wrapper.py lines 129-251).  In order: the
two reentrancy-guard checks short-circuit to a plain call; the fast path
(`runs == 1 and workers == 1`) calls the function directly, timing it but
passing value and exceptions through (the `enforce_timeout` flag only logs a
warning there); the multiprocessing batched path raises `ValueError` when
`enforce_timeout` is set (line 178, before the pool is created); otherwise
the attempt triples are collected and aggregated by `batchReturn`.  The
instance-method argument repacking (lines 157-170) only changes how the same
callable is invoked and is absorbed by the `Attempt` abstraction. -/
def sync_wrapper (cfg : Config) (ctx : ExecCtx) (bs : List (Attempt α)) :
    Except PyErr (Ret α × Option Stats) :=
  if ctx.isMainThread = false then directCall bs
  else if ctx.processName ≠ "MainProcess" then directCall bs
  else if cfg.runs = 1 ∧ cfg.workers = 1 then directCall bs
  else if cfg.use_multiprocessing ∧ cfg.enforce_timeout then
    .error (.valueError "enforce_timeout=True is not supported with use_multiprocessing=True")
  else .ok (batchReturn cfg.detailed (syncRecords cfg bs))

/-- Model of `async_wrapper` (async_wrapper.py lines 89-197).  The guard
checks `await func(*args, **kwargs)` directly (exceptions propagate); the
fast path awaits `run_once`, which catches exceptions itself, then formats
the duration before returning the value component: when the coroutine raised,
`duration` is `None`, and the non-detailed branch's
`f"{func.__name__}: Exec: {duration:.6f}s"` (line 144) raises `TypeError`
(`format(None, '.6f')`), which escapes to the caller; the detailed branch's
`f"{duration}s"` (line 141) formats `None` harmlessly and line 146 returns
the `None` result.  The batched path gathers `runs` `run_once` results under
the semaphore and aggregates them. -/
def async_wrapper (cfg : Config) (ctx : ExecCtx) (bs : List (Attempt α)) :
    Except PyErr (Ret α × Option Stats) :=
  if ctx.isMainThread = false then directCall bs
  else if ctx.processName ≠ "MainProcess" then directCall bs
  else if cfg.runs = 1 ∧ cfg.workers = 1 then
    match bs with
    | [] => .ok (Ret.pynone, none)
    | b :: _ =>
        if cfg.detailed = false
            ∧ (run_once cfg.timeout cfg.enforce_timeout b).1 = none then
          .error PyErr.typeError
        else .ok (toRet (run_once cfg.timeout cfg.enforce_timeout b).2.1, none)
  else
    .ok (asyncBatchReturn cfg.detailed
      (bs.map (run_once cfg.timeout cfg.enforce_timeout)))

/-- Model of the legacy `_timeit_worker` (timeit.py lines 18-33): returns the
pair `(duration, result)` on success and Python `None` when the callable
raised. -/
def legacy_timeit_worker : Attempt α → Option (ℚ × Option α)
  | .raises => none
  | .completes t v => some (t, v)

/-- The legacy statistics (timeit.py lines 158-163) have no timed-out flag;
they are modelled by `computeStats` over an empty flag list. -/
def legacy_stats (times : List ℚ) : Stats := computeStats times []

/-- Model of the legacy `wrapper` (timeit.py lines 90-193): guard checks,
call-time validation of `runs`/`workers`, the fast path (which also covers
`runs == 1 and workers > runs`), then the batched path.  When every attempt
failed, `times` is empty and line 156 raises `RuntimeError`.  Otherwise line
193 returns `results[0][1]`; if the first attempt failed, `results[0]` is
`None` and subscripting it raises `TypeError`. -/
def timeit_wrapper (runs workers : Int) (use_multiprocessing detailed : Bool)
    (ctx : ExecCtx) (bs : List (Attempt α)) :
    Except PyErr (Ret α × Option Stats) :=
  if ctx.isMainThread = false then directCall bs
  else if ctx.processName ≠ "MainProcess" then directCall bs
  else if runs < 1 ∨ workers < 1 then
    .error (.valueError "Both runs and workers must be at least 1")
  else if (runs = 1 ∧ workers = 1) ∨ (runs = 1 ∧ workers > runs) then
    directCall bs
  else
    let results := bs.map legacy_timeit_worker
    let times := (results.filterMap id).map fun r => r.1
    if times.isEmpty then
      .error (.runtimeError "No valid results were returned from the timed function.")
    else
      match results.head? with
      | some (some r) => .ok (toRet r.2, some (legacy_stats times))
      | some none => .error PyErr.typeError
      | none => .ok (Ret.pynone, none)

/-- The context in which a harness-spawned worker executes the wrapped
callable: a non-main thread of the main process in threading mode, the main
thread of a pool child process in multiprocessing mode. -/
def workerCtx (use_multiprocessing : Bool) : ExecCtx :=
  if use_multiprocessing then ⟨true, "ForkPoolWorker-1"⟩
  else ⟨false, "MainProcess"⟩

/-- Pool-creation count of a self-recursive wrapped callable, following the
control flow of `sync_wrapper`: the first argument is the remaining recursion
depth of the callable (each invocation of the callable body calls the wrapped
callable again until the depth is exhausted).  A guarded or fast-path
invocation calls the callable directly in the same context; a batched
invocation creates one pool and runs `runs` attempts, each of which invokes
the callable inside a worker context.  The multiprocessing + enforced-timeout
combination raises before its pool is created. -/
def poolCreations : Nat → Config → ExecCtx → Nat
  | 0, _, _ => 0
  | Nat.succ d, cfg, ctx =>
    if guardTriggered ctx then poolCreations d cfg ctx
    else if cfg.runs = 1 ∧ cfg.workers = 1 then poolCreations d cfg ctx
    else if cfg.use_multiprocessing ∧ cfg.enforce_timeout then 0
    else cfg.runs * poolCreations d cfg (workerCtx cfg.use_multiprocessing) + 1

/-- Modelled from the spec: the first Result Record, in original dispatch
order, whose attempt both succeeded (`failed=false`, i.e. it is not a failure
triple — failure triples carry no duration) and produced a present value,
determines the value returned to the caller.  This is the specification-side
definition compared against `batchReturn`. -/
def firstSuccessfulValue (rs : List (WorkerResult α)) : Option α :=
  (rs.find? fun r => r.1.isSome && r.2.1.isSome).bind fun r => r.2.1

/-- Value component of a wrapper outcome, discarding the statistics report:
what the caller observes. -/
def retOf (e : Except PyErr (Ret α × Option Stats)) : Except PyErr (Ret α) :=
  e.map Prod.fst

/-! ## Helper lemmas -/

/-- A worker triple of `_timeit_worker` with an absent duration is the failure
triple, whose value is also absent. -/
lemma timeit_worker_inv (timeout : Option ℚ) (enf : Bool) (b : Attempt α)
    (h : (timeit_worker timeout enf b).1 = none) :
    (timeit_worker timeout enf b).2.1 = none := by
  cases b <;> simp [timeit_worker] at h ⊢

/-- A triple of the enforced collection loop with an absent duration is the
failure triple, whose value is also absent. -/
lemma enforcedCollect_inv (tout : ℚ) (b : Attempt α)
    (h : (enforcedCollect tout b).1 = none) :
    (enforcedCollect tout b).2.1 = none := by
  cases b with
  | raises => rfl
  | completes t v =>
      by_cases ht : t > tout <;> simp [enforcedCollect, ht] at h

/-- A triple of async `run_once` with an absent duration has an absent
value. -/
lemma run_once_inv (timeout : Option ℚ) (enf : Bool) (b : Attempt α)
    (h : (run_once timeout enf b).1 = none) :
    (run_once timeout enf b).2.1 = none := by
  cases b with
  | raises => rfl
  | completes t v =>
      cases timeout with
      | none => simp [run_once] at h
      | some tout =>
          by_cases h0 : tout = 0
          · simp [run_once, h0] at h
          · cases enf with
            | false => simp [run_once, h0] at h
            | true =>
                by_cases ht : t > tout <;> simp [run_once, h0, ht] at h

/-- Every record produced by the synchronous batched collection has a present
duration whenever it has a present value. -/
lemma syncRecords_inv (cfg : Config) (bs : List (Attempt α)) :
    ∀ r ∈ syncRecords cfg bs, r.1 = none → r.2.1 = none := by
  intro r hr
  unfold syncRecords at hr
  split at hr
  · obtain ⟨b, _, rfl⟩ := List.mem_map.1 hr
    exact timeit_worker_inv _ _ b
  · split at hr
    · obtain ⟨b, _, rfl⟩ := List.mem_map.1 hr
      exact enforcedCollect_inv _ b
    · obtain ⟨b, _, rfl⟩ := List.mem_map.1 hr
      exact timeit_worker_inv _ _ b

/-- On record lists where an absent duration forces an absent value, the
spec's first-successful-value equals the head of the wrapper's
`valid_results` comprehension. -/
lemma firstSuccessfulValue_eq_head (rs : List (WorkerResult α))
    (hinv : ∀ r ∈ rs, r.1 = none → r.2.1 = none) :
    firstSuccessfulValue rs = (rs.filterMap fun r => r.2.1).head? := by
  induction rs with
  | nil => rfl
  | cons r rest ih =>
      cases hv : r.2.1 with
      | some w =>
          have hdur : r.1.isSome := by
            cases hd : r.1 with
            | none =>
                have := hinv r (List.mem_cons_self r rest) hd
                rw [hv] at this
                exact absurd this (by simp)
            | some t => rfl
          unfold firstSuccessfulValue
          rw [List.find?_cons_of_pos _ (by simp [hdur, hv])]
          simp [List.filterMap_cons, hv]
      | none =>
          unfold firstSuccessfulValue
          rw [List.find?_cons_of_neg _ (by simp [hv])]
          simp only [List.filterMap_cons, hv]
          exact ih fun x hx => hinv x (List.mem_cons_of_mem r hx)

/-- When every duration in a record list is absent, so is every value
(given the duration/value invariant), so both comprehensions are empty. -/
lemma values_empty_of_times_empty (rs : List (WorkerResult α))
    (hinv : ∀ r ∈ rs, r.1 = none → r.2.1 = none)
    (h : (rs.filterMap fun r => r.1) = []) :
    (rs.filterMap fun r => r.2.1) = [] := by
  rw [List.filterMap_eq_nil_iff] at h ⊢
  exact fun r hr => hinv r hr (h r hr)

/-- The batched return value is `val v` exactly when the spec-side first
successful value is `v`, for any record list satisfying the duration/value
invariant. -/
lemma batchReturn_val_iff (d : Bool) (rs : List (WorkerResult α))
    (hinv : ∀ r ∈ rs, r.1 = none → r.2.1 = none) (v : α) :
    (batchReturn d rs).1 = Ret.val v ↔ firstSuccessfulValue rs = some v := by
  rw [firstSuccessfulValue_eq_head rs hinv]
  unfold batchReturn
  by_cases h : (rs.filterMap fun r => r.1).isEmpty
  · have hv : (rs.filterMap fun r => r.2.1) = [] :=
      values_empty_of_times_empty rs hinv (List.isEmpty_iff.1 h)
    rw [if_pos h, hv]
    cases d <;> simp
  · rw [if_neg h]
    cases hh : (rs.filterMap fun r => r.2.1).head? <;> simp [hh]

/-- The batched synchronous wrapper at the top-level context, outside the
fast path and outside the rejected multiprocessing + enforced-timeout
combination, returns the aggregation of the collected records. -/
lemma sync_wrapper_batched (cfg : Config) (bs : List (Attempt α))
    (hb : ¬(cfg.runs = 1 ∧ cfg.workers = 1))
    (hmp : ¬(cfg.use_multiprocessing = true ∧ cfg.enforce_timeout = true)) :
    sync_wrapper cfg mainCtx bs =
      .ok (batchReturn cfg.detailed (syncRecords cfg bs)) := by
  unfold sync_wrapper
  rw [if_neg (by simp [mainCtx]), if_neg (by simp [mainCtx]), if_neg hb,
    if_neg hmp]

/-- The batched asynchronous wrapper at the top-level context returns the
aggregation of the gathered `run_once` records. -/
lemma async_wrapper_batched (cfg : Config) (bs : List (Attempt α))
    (hb : ¬(cfg.runs = 1 ∧ cfg.workers = 1)) :
    async_wrapper cfg mainCtx bs =
      .ok (asyncBatchReturn cfg.detailed
        (bs.map (run_once cfg.timeout cfg.enforce_timeout))) := by
  unfold async_wrapper
  rw [if_neg (by simp [mainCtx]), if_neg (by simp [mainCtx]), if_neg hb]

/-- Filtering a replicated element whose projection is absent gives the empty
list. -/
lemma filterMap_replicate_none {β γ : Type} (f : β → Option γ) (a : β)
    (h : f a = none) (n : Nat) : (List.replicate n a).filterMap f = [] := by
  induction n with
  | zero => rfl
  | succ n ih => simp [List.replicate_succ, List.filterMap_cons, h, ih]

/-- Aggregating records that all carry an absent duration yields the
all-failed sentinel — `None`, or `[]` under `detailed` — and no
statistics. -/
lemma batchReturn_replicate_failed (d : Bool) (n : Nat) (r : WorkerResult α)
    (h : r.1 = none) :
    batchReturn d (List.replicate n r) =
      ((if d then Ret.emptyList else Ret.pynone), none) := by
  unfold batchReturn
  rw [if_pos (by simp [filterMap_replicate_none _ r h n])]

/-- On an all-raising batch, every synchronous collection mode produces the
failure triple for every attempt, so the batched synchronous wrapper returns
the sentinel with no statistics report. -/
lemma sync_wrapper_all_raises (cfg : Config) (n : Nat)
    (hb : ¬(cfg.runs = 1 ∧ cfg.workers = 1))
    (hmp : ¬(cfg.use_multiprocessing = true ∧ cfg.enforce_timeout = true)) :
    sync_wrapper cfg mainCtx (List.replicate n (Attempt.raises : Attempt α)) =
      .ok ((if cfg.detailed then Ret.emptyList else Ret.pynone), none) := by
  rw [sync_wrapper_batched cfg _ hb hmp]
  unfold syncRecords
  split
  · rw [List.map_replicate, batchReturn_replicate_failed _ _ _ rfl]
  · split <;>
      rw [List.map_replicate, batchReturn_replicate_failed _ _ _ rfl]

/-- On an all-raising batch, the batched asynchronous wrapper returns the
sentinel with no statistics report. -/
lemma async_wrapper_all_raises (cfg : Config) (n : Nat)
    (hb : ¬(cfg.runs = 1 ∧ cfg.workers = 1)) :
    async_wrapper cfg mainCtx (List.replicate n (Attempt.raises : Attempt α)) =
      .ok ((if cfg.detailed then Ret.emptyList else Ret.pynone), none) := by
  rw [async_wrapper_batched cfg _ hb]
  unfold asyncBatchReturn
  rw [List.map_replicate, batchReturn_replicate_failed _ _ _ rfl]

/-- Aggregating a nonempty record list in which every record has a present
duration and an absent value returns Python `None` together with a statistics
report. -/
lemma batchReturn_allnone (d : Bool) (rs : List (WorkerResult α))
    (hne : rs ≠ [])
    (hall : ∀ r ∈ rs, r.1.isSome ∧ r.2.1 = none) :
    batchReturn d rs =
      (Ret.pynone,
        some (computeStats (rs.filterMap fun r => r.1)
          (rs.filterMap fun r => r.2.2))) := by
  unfold batchReturn
  have htimes : ¬(rs.filterMap fun r => r.1).isEmpty := by
    cases rs with
    | nil => exact absurd rfl hne
    | cons r rest =>
        have h1 := (hall r (List.mem_cons_self r rest)).1
        cases hd : r.1 with
        | none => rw [hd] at h1; exact absurd h1 (by simp)
        | some t => simp [List.filterMap_cons, hd]
  have hvals : (rs.filterMap fun r => r.2.1) = [] := by
    rw [List.filterMap_eq_nil_iff]
    exact fun r hr => (hall r hr).2
  rw [if_neg htimes, hvals]
  rfl

/-- The `detailed` flag can change the batched return value only in the
all-failed branch, where it selects `[]` over `None`. -/
lemma batchReturn_detailed_cases (rs : List (WorkerResult α)) :
    (batchReturn false rs).1 = (batchReturn true rs).1
    ∨ ((batchReturn false rs).1 = Ret.pynone
       ∧ (batchReturn true rs).1 = Ret.emptyList) := by
  unfold batchReturn
  by_cases h : (rs.filterMap fun r => r.1).isEmpty
  · right
    rw [if_pos h, if_pos h]
    exact ⟨rfl, rfl⟩
  · left
    rw [if_neg h, if_neg h]

/-- The reentrancy guard always fires inside a worker context: a pool thread
is not the main thread, and a pool child process is not named
`MainProcess`. -/
lemma guardTriggered_workerCtx (m : Bool) : guardTriggered (workerCtx m) := by
  cases m <;> decide

/-- The guard never fires in the top-level context. -/
lemma not_guardTriggered_mainCtx : ¬guardTriggered mainCtx := by decide

/-- A self-recursive callable running inside a worker context never creates a
pool, at any recursion depth. -/
lemma poolCreations_workerCtx (d : Nat) (cfg : Config) (m : Bool) :
    poolCreations d cfg (workerCtx m) = 0 := by
  induction d with
  | zero => rfl
  | succ d ih =>
      unfold poolCreations
      rw [if_pos (guardTriggered_workerCtx m)]
      exact ih

/-- The observable value of a successful wrapper outcome is its first
component. -/
lemma retOf_ok (x : Ret α × Option Stats) :
    retOf (Except.ok x : Except PyErr (Ret α × Option Stats)) = .ok x.1 := rfl

/-- Mapping a nonempty list is nonempty. -/
lemma map_ne_nil {β γ : Type} (f : β → γ) (l : List β) (h : l ≠ []) :
    l.map f ≠ [] := by
  cases l with
  | nil => exact absurd rfl h
  | cons a r => simp

/-- A sync worker record of an attempt completing with Python `None` has a
present duration and an absent value. -/
lemma timeit_worker_allnone (timeout : Option ℚ) (enf : Bool) (t : ℚ) :
    (timeit_worker timeout enf (Attempt.completes t (none : Option α))).1.isSome = true
  ∧ (timeit_worker timeout enf (Attempt.completes t (none : Option α))).2.1 = none := by
  simp [timeit_worker]

/-- An enforced-collection record of an attempt completing with Python
`None` has a present duration and an absent value. -/
lemma enforcedCollect_allnone (tout t : ℚ) :
    (enforcedCollect tout (Attempt.completes t (none : Option α))).1.isSome = true
  ∧ (enforcedCollect tout (Attempt.completes t (none : Option α))).2.1 = none := by
  by_cases ht : t > tout <;> simp [enforcedCollect, ht]

/-- An async `run_once` record of an attempt completing with Python `None`
has a present duration and an absent value. -/
lemma run_once_allnone (timeout : Option ℚ) (enf : Bool) (t : ℚ) :
    (run_once timeout enf (Attempt.completes t (none : Option α))).1.isSome = true
  ∧ (run_once timeout enf (Attempt.completes t (none : Option α))).2.1 = none := by
  cases timeout with
  | none => simp [run_once]
  | some tout =>
      by_cases h0 : tout = 0
      · simp [run_once, h0]
      · cases enf with
        | false => simp [run_once, h0]
        | true => by_cases ht : t > tout <;> simp [run_once, h0, ht]

/-- The legacy worker collapses an all-raising batch to an empty filtered
list. -/
lemma legacy_all_raises_aux (n : Nat) :
    ((List.replicate n (Attempt.raises : Attempt α)).map
      legacy_timeit_worker).filterMap id = [] := by
  rw [List.map_replicate]
  exact filterMap_replicate_none id _ rfl n

/-! ## Claims -/

/-- C1: in every batched invocation, the value returned to the caller is the
value of the first attempt, in original dispatch order, whose Result Record
has `failed=false` and a present value; it is never drawn from a failed or
valueless attempt.  Stated for the synchronous wrapper under every collection
mode not rejected at call time, and for the asynchronous wrapper: the
caller-visible value is `v` exactly when the spec-side
`firstSuccessfulValue` of the dispatched records is `v`. -/
theorem returned_value_first_successful (cfg : Config) (bs : List (Attempt α))
    (v : α) (hb : ¬(cfg.runs = 1 ∧ cfg.workers = 1))
    (hmp : ¬(cfg.use_multiprocessing = true ∧ cfg.enforce_timeout = true)) :
    (retOf (sync_wrapper cfg mainCtx bs) = .ok (Ret.val v) ↔
      firstSuccessfulValue (syncRecords cfg bs) = some v)
  ∧ (retOf (async_wrapper cfg mainCtx bs) = .ok (Ret.val v) ↔
      firstSuccessfulValue
        (bs.map (run_once cfg.timeout cfg.enforce_timeout)) = some v) := by
  constructor
  · rw [sync_wrapper_batched cfg bs hb hmp, retOf_ok, Except.ok.injEq]
    exact batchReturn_val_iff cfg.detailed _ (syncRecords_inv cfg bs) v
  · rw [async_wrapper_batched cfg bs hb, retOf_ok, Except.ok.injEq]
    unfold asyncBatchReturn
    refine batchReturn_val_iff cfg.detailed _ ?_ v
    intro r hr
    obtain ⟨b, _, rfl⟩ := List.mem_map.1 hr
    exact run_once_inv _ _ b

/-- C1 witness at a concrete batch: the first attempt raises and the second
completes with value 7, so the caller receives 7. -/
theorem returned_value_first_successful_witness :
    (retOf (sync_wrapper ⟨2, 2, false, false, none, false⟩ mainCtx
        ([Attempt.raises, Attempt.completes 1 (some 7)] : List (Attempt ℕ))) =
        .ok (Ret.val 7) ↔
      firstSuccessfulValue
        (syncRecords ⟨2, 2, false, false, none, false⟩
          [Attempt.raises, Attempt.completes 1 (some 7)]) = some 7)
  ∧ (retOf (async_wrapper ⟨2, 2, false, false, none, false⟩ mainCtx
        ([Attempt.raises, Attempt.completes 1 (some 7)] : List (Attempt ℕ))) =
        .ok (Ret.val 7) ↔
      firstSuccessfulValue
        ([Attempt.raises, Attempt.completes 1 (some 7)].map
          (run_once none false)) = some 7) :=
  returned_value_first_successful ⟨2, 2, false, false, none, false⟩
    [Attempt.raises, Attempt.completes 1 (some 7)] 7
    (by simp) (by simp)

/-- C3: with a timeout configured, the soft policy (`enforce_timeout=false`)
lets the attempt run to completion and records the completed value and the
true elapsed duration, with `timed_out=true` exactly when the elapsed time
exceeds the timeout; the enforced thread-based policy cancels an attempt
whose elapsed time exceeds the budget and records `(timeout, None, True)` —
`timed_out=true`, value absent, `failed=false` (the duration is present, for
the elapsed wait at cancellation), while an attempt finishing within the
budget keeps its real value and duration with `timed_out=false`. -/
theorem timeout_policy_records (t tout : ℚ) (v : Option α) :
    timeit_worker (some tout) false (Attempt.completes t v) =
      (some t, v, some (decide (t > tout)))
  ∧ (t > tout →
      enforcedCollect tout (Attempt.completes t v) = (some tout, none, some true))
  ∧ (¬t > tout →
      enforcedCollect tout (Attempt.completes t v) = (some t, v, some false)) := by
  refine ⟨by simp [timeit_worker], fun ht => ?_, fun ht => ?_⟩
  · simp [enforcedCollect, ht]
  · simp [enforcedCollect, ht]

/-- C3 witness: an attempt taking 2s against a 1s budget is soft-flagged with
its true duration under the soft policy and cancelled with an absent value
under the enforced policy. -/
theorem timeout_policy_records_witness :
    timeit_worker (some 1) false (Attempt.completes 2 (some 5)) =
      (some 2, some 5, some (decide ((2 : ℚ) > 1)))
  ∧ enforcedCollect 1 (Attempt.completes 2 (some 5)) =
      (some 1, none, some true) :=
  ⟨(timeout_policy_records 2 1 (some 5)).1,
    (timeout_policy_records 2 1 (some 5)).2.1 (by norm_num)⟩

/-- C4: on the synchronous fast path (`runs=1` and `workers=1`) the wrapper
invokes the callable directly and returns its raw value unchanged, a raised
error propagates unchanged to the caller, and this is the only synchronous
path on which a wrapped-callable error is surfaced from the top-level
context. -/
theorem fast_path_passthrough (cfg : Config) (t : ℚ) (v : Option α)
    (hr : cfg.runs = 1) (hw : cfg.workers = 1) :
    sync_wrapper cfg mainCtx [Attempt.completes t v] = .ok (toRet v, none)
  ∧ sync_wrapper cfg mainCtx ([Attempt.raises] : List (Attempt α)) =
      .error PyErr.userExc
  ∧ ∀ cfg2 : Config, ∀ bs : List (Attempt α),
      ¬(cfg2.runs = 1 ∧ cfg2.workers = 1) →
      sync_wrapper cfg2 mainCtx bs ≠ .error PyErr.userExc := by
  refine ⟨?_, ?_, ?_⟩
  · unfold sync_wrapper
    rw [if_neg (by simp [mainCtx]), if_neg (by simp [mainCtx]),
      if_pos ⟨hr, hw⟩]
    rfl
  · unfold sync_wrapper
    rw [if_neg (by simp [mainCtx]), if_neg (by simp [mainCtx]),
      if_pos ⟨hr, hw⟩]
    rfl
  · intro cfg2 bs hb
    unfold sync_wrapper
    rw [if_neg (by simp [mainCtx]), if_neg (by simp [mainCtx]), if_neg hb]
    split
    · simp
    · simp

/-- C4 witness: with `runs=1, workers=1` the value 42 passes through
unchanged, a raising callable raises to the caller, and a batched
configuration never surfaces the callable's exception. -/
theorem fast_path_passthrough_witness :
    sync_wrapper ⟨1, 1, false, false, none, false⟩ mainCtx
      [Attempt.completes 1 (some 42)] = .ok (Ret.val 42, none)
  ∧ sync_wrapper ⟨1, 1, false, false, none, false⟩ mainCtx
      ([Attempt.raises] : List (Attempt ℕ)) = .error PyErr.userExc
  ∧ sync_wrapper ⟨2, 2, false, false, none, false⟩ mainCtx
      ([Attempt.raises] : List (Attempt ℕ)) ≠ .error PyErr.userExc :=
  ⟨(fast_path_passthrough ⟨1, 1, false, false, none, false⟩ 1 (some 42)
      rfl rfl).1,
    (fast_path_passthrough (α := ℕ) ⟨1, 1, false, false, none, false⟩ 1
      (some 42) rfl rfl).2.1,
    (fast_path_passthrough (α := ℕ) ⟨1, 1, false, false, none, false⟩ 1
      (some 42) rfl rfl).2.2 ⟨2, 2, false, false, none, false⟩
      [Attempt.raises] (by simp)⟩

/-- C7: a configuration accepted at construction has effective worker count
`min(workers, runs)`, at least 1, and never exceeding `runs`; the
asynchronous constructor accepts the same configuration. -/
theorem workers_clamped (r w : Int) (umd det : Bool) (tout : Option ℚ)
    (enf : Bool) (cfg : Config)
    (hs : timeit_sync r w umd det tout enf = .ok cfg) :
    cfg.runs = r.toNat
  ∧ cfg.workers = min w.toNat r.toNat
  ∧ 1 ≤ cfg.workers
  ∧ cfg.workers ≤ cfg.runs
  ∧ timeit_async r w umd det tout enf = .ok cfg := by
  unfold timeit_sync at hs
  by_cases h : r < 1 ∨ w < 1
  · rw [if_pos h] at hs
    exact absurd hs (by simp)
  · rw [if_neg h] at hs
    push_neg at h
    obtain ⟨hr, hw⟩ := h
    injection hs with h2
    subst h2
    refine ⟨rfl, by dsimp only; omega, by dsimp only; omega,
      by dsimp only; omega, ?_⟩
    unfold timeit_async
    rw [if_neg (by push_neg; exact ⟨hr, hw⟩)]

/-- C7 witness at `runs=5, workers=3`. -/
theorem workers_clamped_witness :
    (⟨5, 3, false, false, none, false⟩ : Config).runs = (5 : Int).toNat
  ∧ (⟨5, 3, false, false, none, false⟩ : Config).workers =
      min (3 : Int).toNat (5 : Int).toNat
  ∧ 1 ≤ (⟨5, 3, false, false, none, false⟩ : Config).workers
  ∧ (⟨5, 3, false, false, none, false⟩ : Config).workers ≤
      (⟨5, 3, false, false, none, false⟩ : Config).runs
  ∧ timeit_async 5 3 false false none false =
      .ok ⟨5, 3, false, false, none, false⟩ :=
  workers_clamped 5 3 false false none false
    ⟨5, 3, false, false, none, false⟩ (by rfl)

/-- C8: over the durations of the successful records — exactly those with a
present duration, failed records carrying none — the aggregator computes
mean, median, min, max, total, and the sample standard deviation (0 for a
single sample); on durations `0.1, 0.2, 0.3` it yields mean `0.2`, median
`0.2`, min `0.1`, max `0.3`, total `0.6` and a strictly positive standard
deviation, and the batched aggregation attaches exactly these statistics. -/
theorem stats_aggregator_concrete :
    computeStats [1/10, 2/10, 3/10] [false, false, false] =
      ⟨2/10, 2/10, 1/10, 3/10, 6/10, false⟩
  ∧ 0 < std_dev [1/10, 2/10, 3/10]
  ∧ std_dev [2/10] = 0
  ∧ (batchReturn false
      ([(some (1/10), some 1, some false), (some (2/10), some 2, some false),
        (some (3/10), some 3, some false)] : List (WorkerResult ℕ))).2 =
      some (computeStats [1/10, 2/10, 3/10] [false, false, false]) := by
  refine ⟨?_, ?_, ?_, by rfl⟩
  · unfold computeStats
    norm_num [meanQ, medianQ, sortQ, insertSorted, listMin, listMax,
      List.foldl, min_def, max_def]
  · have hv : sampleVar [1/10, 2/10, 3/10] = 1/100 := by
      norm_num [sampleVar, meanQ]
    rw [std_dev, if_pos (by norm_num), hv]
    rw [show ((1/100 : ℚ) : ℝ) = 1/100 by norm_num]
    positivity
  · rw [std_dev, if_neg (by norm_num)]

/-- C2: every invocation from a context that is not the main thread of the
main process short-circuits to a plain, uninstrumented call of the original
callable (no timing, pooling, or reporting, for both wrappers), and a
self-recursive wrapped callable creates exactly one pool regardless of its
recursion depth. -/
theorem reentrancy_guard_short_circuits (ctx : ExecCtx) (cfg : Config)
    (bs : List (Attempt α)) (d : Nat)
    (hg : guardTriggered ctx)
    (hb : ¬(cfg.runs = 1 ∧ cfg.workers = 1))
    (hmp : ¬(cfg.use_multiprocessing = true ∧ cfg.enforce_timeout = true)) :
    sync_wrapper cfg ctx bs = directCall bs
  ∧ async_wrapper cfg ctx bs = directCall bs
  ∧ poolCreations (d + 1) cfg mainCtx = 1 := by
  refine ⟨?_, ?_, ?_⟩
  · unfold sync_wrapper
    by_cases h1 : ctx.isMainThread = false
    · rw [if_pos h1]
    · rw [if_neg h1]
      rcases hg with h | h
      · exact absurd h h1
      · rw [if_pos h]
  · unfold async_wrapper
    by_cases h1 : ctx.isMainThread = false
    · rw [if_pos h1]
    · rw [if_neg h1]
      rcases hg with h | h
      · exact absurd h h1
      · rw [if_pos h]
  · unfold poolCreations
    rw [if_neg not_guardTriggered_mainCtx, if_neg hb, if_neg hmp,
      poolCreations_workerCtx]
    simp

/-- C2 witness: a call from a worker thread of the main process is a plain
call, and three levels of self-recursion still create exactly one pool. -/
theorem reentrancy_guard_short_circuits_witness :
    sync_wrapper ⟨2, 2, false, false, none, false⟩ ⟨false, "MainProcess"⟩
      ([Attempt.completes 1 (some 3)] : List (Attempt ℕ)) =
      directCall [Attempt.completes 1 (some 3)]
  ∧ async_wrapper ⟨2, 2, false, false, none, false⟩ ⟨false, "MainProcess"⟩
      ([Attempt.completes 1 (some 3)] : List (Attempt ℕ)) =
      directCall [Attempt.completes 1 (some 3)]
  ∧ poolCreations (3 + 1) ⟨2, 2, false, false, none, false⟩ mainCtx = 1 :=
  reentrancy_guard_short_circuits ⟨false, "MainProcess"⟩
    ⟨2, 2, false, false, none, false⟩ [Attempt.completes 1 (some 3)] 3
    (Or.inl rfl) (by simp) (by simp)

/-- C5 counterexample: the legacy `timeit` wrapper of timeit.py, on a batched
invocation in which every attempt raises, lets a `RuntimeError` escape to the
caller instead of returning the absent sentinel. -/
theorem legacy_all_failed_raises :
    timeit_wrapper 2 2 false false mainCtx
      ([Attempt.raises, Attempt.raises] : List (Attempt ℕ)) =
      .error (.runtimeError "No valid results were returned from the timed function.") := by
  rfl

/-- C5 amended: in the batched paths of `sync_wrapper` and `async_wrapper`,
an all-raising batch returns the absent sentinel (`None`, or `[]` under
`detailed`) with no statistics report and no escaping exception; the legacy
`timeit` wrapper instead raises `RuntimeError` on the same input. -/
theorem all_failed_batched_sentinel (cfg : Config) (n : Nat) (r w : Int)
    (umd det : Bool)
    (hb : ¬(cfg.runs = 1 ∧ cfg.workers = 1))
    (hmp : ¬(cfg.use_multiprocessing = true ∧ cfg.enforce_timeout = true))
    (hr : 2 ≤ r) (hw : 1 ≤ w) :
    sync_wrapper cfg mainCtx (List.replicate n (Attempt.raises : Attempt α)) =
      .ok ((if cfg.detailed then Ret.emptyList else Ret.pynone), none)
  ∧ async_wrapper cfg mainCtx (List.replicate n (Attempt.raises : Attempt α)) =
      .ok ((if cfg.detailed then Ret.emptyList else Ret.pynone), none)
  ∧ timeit_wrapper r w umd det mainCtx
      (List.replicate n (Attempt.raises : Attempt α)) =
      .error (.runtimeError "No valid results were returned from the timed function.") := by
  refine ⟨sync_wrapper_all_raises cfg n hb hmp,
    async_wrapper_all_raises cfg n hb, ?_⟩
  unfold timeit_wrapper
  rw [if_neg (by simp [mainCtx]), if_neg (by simp [mainCtx]),
    if_neg (by omega), if_neg (by omega)]
  simp only [legacy_all_raises_aux, List.map_nil, List.isEmpty_nil, if_true]

/-- C5 witness: two raising attempts under `runs=2, workers=2`. -/
theorem all_failed_batched_sentinel_witness :
    sync_wrapper ⟨2, 2, false, false, none, false⟩ mainCtx
      (List.replicate 2 (Attempt.raises : Attempt ℕ)) = .ok (Ret.pynone, none)
  ∧ async_wrapper ⟨2, 2, false, false, none, false⟩ mainCtx
      (List.replicate 2 (Attempt.raises : Attempt ℕ)) = .ok (Ret.pynone, none)
  ∧ timeit_wrapper 2 2 false false mainCtx
      (List.replicate 2 (Attempt.raises : Attempt ℕ)) =
      .error (.runtimeError "No valid results were returned from the timed function.") :=
  all_failed_batched_sentinel ⟨2, 2, false, false, none, false⟩ 2 2 2
    false false (by simp) (by simp) (by norm_num) (by norm_num)

/-- C6 counterexample: `enforce_timeout=True` together with
`use_multiprocessing=True` is accepted at construction by both constructors —
no configuration error is raised at wrap-construction time. -/
theorem enforce_mp_accepted_at_construction :
    timeit_sync 2 2 true false (some 1) true =
      .ok ⟨2, 2, true, false, some 1, true⟩
  ∧ timeit_async 2 2 true false (some 1) true =
      .ok ⟨2, 2, true, false, some 1, true⟩ :=
  ⟨rfl, rfl⟩

/-- C6 amended: construction raises exactly for `runs < 1` or `workers < 1`
(for both constructors, independently of the flag combination), while the
`enforce_timeout` + `use_multiprocessing` combination is only rejected at
call time, with a `ValueError` raised from the synchronous batched path. -/
theorem config_error_timing (r w : Int) (umd det : Bool) (tout : Option ℚ)
    (enf : Bool) :
    ((∃ e, timeit_sync r w umd det tout enf = .error e) ↔ r < 1 ∨ w < 1)
  ∧ ((∃ e, timeit_async r w umd det tout enf = .error e) ↔ r < 1 ∨ w < 1)
  ∧ ∀ (cfg : Config) (bs : List (Attempt α)),
      cfg.use_multiprocessing = true → cfg.enforce_timeout = true →
      ¬(cfg.runs = 1 ∧ cfg.workers = 1) →
      sync_wrapper cfg mainCtx bs =
        .error (.valueError "enforce_timeout=True is not supported with use_multiprocessing=True") := by
  refine ⟨?_, ?_, ?_⟩
  · unfold timeit_sync
    by_cases h : r < 1 ∨ w < 1 <;> simp [h]
  · unfold timeit_async
    by_cases h : r < 1 ∨ w < 1 <;> simp [h]
  · intro cfg bs hu he hb
    unfold sync_wrapper
    rw [if_neg (by simp [mainCtx]), if_neg (by simp [mainCtx]), if_neg hb,
      if_pos ⟨hu, he⟩]

/-- C6 witness: `runs=0` is rejected at construction, and the
multiprocessing + enforced-timeout combination raises at call time. -/
theorem config_error_timing_witness :
    (∃ e, timeit_sync 0 1 false false none false = .error e)
  ∧ sync_wrapper ⟨2, 2, true, false, some 1, true⟩ mainCtx
      ([] : List (Attempt ℕ)) =
      .error (.valueError "enforce_timeout=True is not supported with use_multiprocessing=True") :=
  ⟨(config_error_timing (α := ℕ) 0 1 false false none false).1.mpr
      (Or.inl (by norm_num)),
    (config_error_timing (α := ℕ) 0 1 false false none false).2.2
      ⟨2, 2, true, false, some 1, true⟩ [] rfl rfl (by simp)⟩

/-- C9 counterexample: with every attempt failing in a batch, the wrapped
call returns `None` when `detailed=False` but `[]` when `detailed=True`; and
on the asynchronous fast path with a raising coroutine, `detailed=False`
lets a `TypeError` (from formatting the absent duration) escape while
`detailed=True` returns `None` — two invocations identical except for
`detailed` behave differently. -/
theorem detailed_changes_allfailed_return :
    retOf (sync_wrapper ⟨2, 1, false, false, none, false⟩ mainCtx
      ([Attempt.raises, Attempt.raises] : List (Attempt ℕ))) = .ok Ret.pynone
  ∧ retOf (sync_wrapper ⟨2, 1, false, true, none, false⟩ mainCtx
      ([Attempt.raises, Attempt.raises] : List (Attempt ℕ))) = .ok Ret.emptyList
  ∧ retOf (async_wrapper ⟨1, 1, false, false, none, false⟩ mainCtx
      ([Attempt.raises] : List (Attempt ℕ))) = .error PyErr.typeError
  ∧ retOf (async_wrapper ⟨1, 1, false, true, none, false⟩ mainCtx
      ([Attempt.raises] : List (Attempt ℕ))) = .ok Ret.pynone
  ∧ (Ret.pynone : Ret ℕ) ≠ Ret.emptyList :=
  ⟨rfl, rfl, rfl, rfl, fun h => Ret.noConfusion h⟩

/-- C9 amended: the `detailed` flag never changes the value returned to the
caller except in two places — the batched all-failed branch, where
`detailed=False` returns `None` and `detailed=True` returns `[]`, and the
asynchronous fast path with a raising coroutine, where `detailed=False`
raises `TypeError` (formatting the absent duration at line 144) while
`detailed=True` returns `None`; this holds for both wrappers, every context,
and every batch of attempt behaviors. -/
theorem detailed_selects_verbosity_only (runs workers : Nat) (umd : Bool)
    (tout : Option ℚ) (enf : Bool) (ctx : ExecCtx) (bs : List (Attempt α)) :
    (retOf (sync_wrapper ⟨runs, workers, umd, false, tout, enf⟩ ctx bs) =
       retOf (sync_wrapper ⟨runs, workers, umd, true, tout, enf⟩ ctx bs)
     ∨ (retOf (sync_wrapper ⟨runs, workers, umd, false, tout, enf⟩ ctx bs) =
          .ok Ret.pynone
        ∧ retOf (sync_wrapper ⟨runs, workers, umd, true, tout, enf⟩ ctx bs) =
          .ok Ret.emptyList))
  ∧ (retOf (async_wrapper ⟨runs, workers, umd, false, tout, enf⟩ ctx bs) =
       retOf (async_wrapper ⟨runs, workers, umd, true, tout, enf⟩ ctx bs)
     ∨ (retOf (async_wrapper ⟨runs, workers, umd, false, tout, enf⟩ ctx bs) =
          .ok Ret.pynone
        ∧ retOf (async_wrapper ⟨runs, workers, umd, true, tout, enf⟩ ctx bs) =
          .ok Ret.emptyList)
     ∨ (retOf (async_wrapper ⟨runs, workers, umd, false, tout, enf⟩ ctx bs) =
          .error PyErr.typeError
        ∧ retOf (async_wrapper ⟨runs, workers, umd, true, tout, enf⟩ ctx bs) =
          .ok Ret.pynone)) := by
  constructor
  · unfold sync_wrapper
    dsimp only
    by_cases h1 : ctx.isMainThread = false
    · rw [if_pos h1, if_pos h1]
      exact Or.inl rfl
    · rw [if_neg h1, if_neg h1]
      by_cases h2 : ctx.processName ≠ "MainProcess"
      · rw [if_pos h2, if_pos h2]
        exact Or.inl rfl
      · rw [if_neg h2, if_neg h2]
        by_cases h3 : runs = 1 ∧ workers = 1
        · rw [if_pos h3, if_pos h3]
          exact Or.inl rfl
        · rw [if_neg h3, if_neg h3]
          by_cases h4 : umd = true ∧ enf = true
          · rw [if_pos h4, if_pos h4]
            exact Or.inl rfl
          · rw [if_neg h4, if_neg h4, retOf_ok, retOf_ok]
            have hR : syncRecords ⟨runs, workers, umd, false, tout, enf⟩ bs =
                syncRecords ⟨runs, workers, umd, true, tout, enf⟩ bs := rfl
            rw [hR]
            rcases batchReturn_detailed_cases
                (syncRecords ⟨runs, workers, umd, true, tout, enf⟩ bs) with
              h | ⟨ha, hz⟩
            · exact Or.inl (by rw [h])
            · exact Or.inr ⟨by rw [ha], by rw [hz]⟩
  · unfold async_wrapper
    dsimp only
    by_cases h1 : ctx.isMainThread = false
    · rw [if_pos h1, if_pos h1]
      exact Or.inl rfl
    · rw [if_neg h1, if_neg h1]
      by_cases h2 : ctx.processName ≠ "MainProcess"
      · rw [if_pos h2, if_pos h2]
        exact Or.inl rfl
      · rw [if_neg h2, if_neg h2]
        by_cases h3 : runs = 1 ∧ workers = 1
        · rw [if_pos h3, if_pos h3]
          cases bs with
          | nil => exact Or.inl rfl
          | cons b rest =>
              dsimp only
              by_cases hd : (run_once tout enf b).1 = none
              · rw [if_pos ⟨rfl, hd⟩, if_neg (by simp)]
                refine Or.inr (Or.inr ⟨rfl, ?_⟩)
                rw [retOf_ok, run_once_inv tout enf b hd]
                rfl
              · rw [if_neg (fun hc => hd hc.2), if_neg (by simp)]
                exact Or.inl rfl
        · rw [if_neg h3, if_neg h3, retOf_ok, retOf_ok]
          unfold asyncBatchReturn
          rcases batchReturn_detailed_cases
              (bs.map (run_once tout enf)) with h | ⟨ha, hz⟩
          · exact Or.inl (by rw [h])
          · exact Or.inr (Or.inl ⟨by rw [ha], by rw [hz]⟩)

/-- C10 counterexample: under `detailed=True`, a batch whose attempts all
succeed with Python `None` returns `None` (with a statistics report), while
an all-failed batch returns `[]` — the two are distinguishable at the return
value. -/
theorem allnone_vs_allfailed_detailed :
    retOf (sync_wrapper ⟨2, 1, false, true, none, false⟩ mainCtx
      ([Attempt.completes 1 none, Attempt.completes 1 none] :
        List (Attempt ℕ))) = .ok Ret.pynone
  ∧ sync_wrapper ⟨2, 1, false, true, none, false⟩ mainCtx
      ([Attempt.completes 1 none, Attempt.completes 1 none] :
        List (Attempt ℕ)) =
      .ok (Ret.pynone, some (computeStats [1, 1] [false, false]))
  ∧ retOf (sync_wrapper ⟨2, 1, false, true, none, false⟩ mainCtx
      ([Attempt.raises, Attempt.raises] : List (Attempt ℕ))) =
      .ok Ret.emptyList
  ∧ (Ret.pynone : Ret ℕ) ≠ Ret.emptyList :=
  ⟨rfl, rfl, rfl, fun h => Ret.noConfusion h⟩

/-- C10 amended: a batch whose attempts all succeed with Python `None`
returns the absent sentinel `None` while a statistics report is still
produced from the durations (for both wrappers); when `detailed=False` the
returned value is indistinguishable from that of an all-failed batch (both
`None`), but under `detailed=True` an all-failed batch returns `[]`
instead. -/
theorem allnone_batch_returns_sentinel (cfg : Config) (bs : List (Attempt α))
    (hb : ¬(cfg.runs = 1 ∧ cfg.workers = 1))
    (hmp : ¬(cfg.use_multiprocessing = true ∧ cfg.enforce_timeout = true))
    (hne : bs ≠ [])
    (hall : ∀ b ∈ bs, ∃ t, b = Attempt.completes t none) :
    (∃ st, sync_wrapper cfg mainCtx bs = .ok (Ret.pynone, some st))
  ∧ (∃ st, async_wrapper cfg mainCtx bs = .ok (Ret.pynone, some st))
  ∧ (cfg.detailed = false →
      retOf (sync_wrapper cfg mainCtx bs) =
        retOf (sync_wrapper cfg mainCtx
          (List.replicate bs.length (Attempt.raises : Attempt α)))) := by
  have hsync : ∀ r ∈ syncRecords cfg bs, r.1.isSome = true ∧ r.2.1 = none := by
    intro r hr
    unfold syncRecords at hr
    split at hr
    · obtain ⟨b, hbm, rfl⟩ := List.mem_map.1 hr
      obtain ⟨t, rfl⟩ := hall b hbm
      exact timeit_worker_allnone _ _ t
    · split at hr
      · obtain ⟨b, hbm, rfl⟩ := List.mem_map.1 hr
        obtain ⟨t, rfl⟩ := hall b hbm
        exact enforcedCollect_allnone _ t
      · obtain ⟨b, hbm, rfl⟩ := List.mem_map.1 hr
        obtain ⟨t, rfl⟩ := hall b hbm
        exact timeit_worker_allnone _ _ t
  have hasync : ∀ r ∈ bs.map (run_once cfg.timeout cfg.enforce_timeout),
      r.1.isSome = true ∧ r.2.1 = none := by
    intro r hr
    obtain ⟨b, hbm, rfl⟩ := List.mem_map.1 hr
    obtain ⟨t, rfl⟩ := hall b hbm
    exact run_once_allnone _ _ t
  have hsne : syncRecords cfg bs ≠ [] := by
    unfold syncRecords
    split
    · exact map_ne_nil _ bs hne
    · split
      · exact map_ne_nil _ bs hne
      · exact map_ne_nil _ bs hne
  refine ⟨?_, ?_, ?_⟩
  · rw [sync_wrapper_batched cfg bs hb hmp,
      batchReturn_allnone cfg.detailed _ hsne hsync]
    exact ⟨_, rfl⟩
  · rw [async_wrapper_batched cfg bs hb]
    unfold asyncBatchReturn
    rw [batchReturn_allnone cfg.detailed _ (map_ne_nil _ bs hne) hasync]
    exact ⟨_, rfl⟩
  · intro hdet
    rw [sync_wrapper_batched cfg bs hb hmp,
      batchReturn_allnone cfg.detailed _ hsne hsync,
      sync_wrapper_all_raises cfg bs.length hb hmp, hdet, retOf_ok, retOf_ok]
    rfl

/-- C10 witness: one attempt completing with `None` under `runs=2,
workers=1`. -/
theorem allnone_batch_returns_sentinel_witness :
    (∃ st, sync_wrapper ⟨2, 1, false, false, none, false⟩ mainCtx
        [Attempt.completes 1 (none : Option ℕ)] = .ok (Ret.pynone, some st))
  ∧ (∃ st, async_wrapper ⟨2, 1, false, false, none, false⟩ mainCtx
        [Attempt.completes 1 (none : Option ℕ)] = .ok (Ret.pynone, some st))
  ∧ ((⟨2, 1, false, false, none, false⟩ : Config).detailed = false →
      retOf (sync_wrapper ⟨2, 1, false, false, none, false⟩ mainCtx
        [Attempt.completes 1 (none : Option ℕ)]) =
        retOf (sync_wrapper ⟨2, 1, false, false, none, false⟩ mainCtx
          (List.replicate [Attempt.completes 1 (none : Option ℕ)].length
            Attempt.raises))) :=
  allnone_batch_returns_sentinel ⟨2, 1, false, false, none, false⟩
    [Attempt.completes 1 (none : Option ℕ)] (by simp) (by simp) (by simp)
    (fun b hbm => ⟨1, by simpa using hbm⟩)

end TimeitDecorator
